import Mathlib

/-!
Shallow embedding of the reporting subsystem of the football-academy backend
(`src/core/pdf.py`, with configuration from `src/academy/settings.py`).

Conventions of the embedding:
* Python values that may be `None`, an `int`, or a `str` are modelled by `PyVal`.
* Python floats are modelled by `ℚ` (the averages are finite ratios of small
  integers; `NaN`/`inf` never arise for a rating average).
* Python exceptions are modelled by `Except PyErr`; a `try/except Exception`
  block is `pyCatchAll`.
* The filesystem, Django storage, HTTP and the ReportLab `ImageReader` are
  oracles collected in an `Env` record: each oracle may return a value or
  raise, exactly at the call sites where the Python code touches them.
* ReportLab flowables are the inductive `Flowable`; the layout engine
  (`SimpleDocTemplate(...).build`) is an abstract `Engine` that, given the
  story, either succeeds with the bytes it wrote to its output file or raises
  an `OSError` after having written some (possibly empty) byte sequence.
-/

/-- Python exceptions, abstracted to their message. -/
abbrev PyErr := String

/-- A Python value that is either `None`, an `int`, or a `str`
(the three shapes that reach `rating_label`). -/
inductive PyVal where
  | none
  | int (n : ℤ)
  | str (s : String)
deriving DecidableEq

/-- Python `str(value)`. -/
def pyStr : PyVal → String
  | PyVal.none => "None"
  | PyVal.int n => toString n
  | PyVal.str s => s

/-- ASCII whitespace as stripped by Python `int` on strings. -/
def pyWhitespace (c : Char) : Bool :=
  c = ' ' || c = '\t' || c = '\n' || c = '\r'

/-- Strip leading and trailing whitespace from a character list. -/
def stripWs (cs : List Char) : List Char :=
  ((cs.dropWhile pyWhitespace).reverse.dropWhile pyWhitespace).reverse

/-- Decimal value of a non-empty all-digit character list, else `none`. -/
def digitsToNat (cs : List Char) : Option ℕ :=
  if cs.isEmpty then Option.none
  else
    cs.foldl
      (fun acc? c =>
        match acc? with
        | some acc =>
          if c.isDigit then some (acc * 10 + (c.toNat - 48)) else Option.none
        | Option.none => Option.none)
      (some 0)

/-- Python `int(s)` on a string: strip whitespace, optional sign, decimal
digits; returns `none` where Python raises `ValueError`.  (Underscore digit
separators and non-ASCII digits, which Python also accepts, never occur in
this program's inputs and are not modelled.) -/
def parseIntStr (s : String) : Option ℤ :=
  match stripWs s.toList with
  | '-' :: rest => (digitsToNat rest).map (fun m => -(m : ℤ))
  | '+' :: rest => (digitsToNat rest).map (fun m => ((m : ℤ)))
  | rest => (digitsToNat rest).map (fun m => ((m : ℤ)))

/-- Python `int(value)`; `none` where Python raises. -/
def pyInt : PyVal → Option ℤ
  | PyVal.none => Option.none
  | PyVal.int n => some n
  | PyVal.str s => parseIntStr s

/-- Python `round` on our rational model of floats: round half to even. -/
def pyRound (q : ℚ) : ℤ :=
  let f := Int.floor q
  let r : ℚ := q - (f : ℚ)
  if r < 1/2 then f
  else if 1/2 < r then f + 1
  else if f % 2 = 0 then f else f + 1

/-- `RATING_LABELS` from `core/pdf.py`. -/
def RATING_LABELS : List (ℤ × String) :=
  [(1, "Bad"), (2, "Not bad"), (3, "Good"), (4, "Very Good"), (5, "Excellent")]

/-- `rating_label(value)` from `core/pdf.py`:
`None ↦ "—"`; otherwise `RATING_LABELS.get(int(value), str(value))`, with any
exception (e.g. `int` failing on a non-numeric string) yielding `"—"`. -/
def rating_label : PyVal → String
  | PyVal.none => "—"
  | v =>
    match pyInt v with
    | some n => ((RATING_LABELS.lookup n).getD (pyStr v))
    | Option.none => "—"

/-- `rating_label_from_average(avg)` from `core/pdf.py`:
`None ↦ "—"`, otherwise `rating_label(max(1, min(5, round(avg))))`. -/
def rating_label_from_average : Option ℚ → String
  | Option.none => "—"
  | some a => rating_label (PyVal.int (max 1 (min 5 (pyRound a))))

/-- `SKILL_TRANSLATIONS_AR` from `core/pdf.py`. -/
def SKILL_TRANSLATIONS_AR : List (String × String) :=
  [ ("Ball control", "التحكم في الكرة"),
    ("Passing", "التمرير"),
    ("Dribbling", "المراوغة"),
    ("Shooting", "التسديد"),
    ("Using both feet", "استخدام القدمين"),
    ("Speed", "السرعة"),
    ("Agility", "الرشاقة"),
    ("Endurance", "التحمل"),
    ("Strength", "القوة"),
    ("Positioning", "التمركز"),
    ("Decision making", "اتخاذ القرار"),
    ("Game awareness", "الوعي بالمباراة"),
    ("Teamwork", "العمل الجماعي"),
    ("Respect", "الاحترام"),
    ("Sportsmanship", "الروح الرياضية"),
    ("Confidence", "الثقة"),
    ("Leadership", "القيادة"),
    ("Attendance and punctuality", "الانضباط والالتزام بالمواعيد") ]

/-- `with_translation(label)` from `core/pdf.py`: appends the raw (unshaped)
Arabic translation in parentheses when available. -/
def with_translation (label : String) : String :=
  match SKILL_TRANSLATIONS_AR.lookup label with
  | some tr => label ++ " (" ++ tr ++ ")"
  | Option.none => label

/-- `with_translation_text(label)` from `core/pdf.py`; `sh` stands for
`_shape_arabic`, which is best-effort and therefore kept abstract. -/
def with_translation_text (sh : String → String) (label : String) : String :=
  match SKILL_TRANSLATIONS_AR.lookup label with
  | some tr => label ++ " (" ++ sh tr ++ ")"
  | Option.none => label

/-- `with_translation_html(label, english_font_name, arabic_font_name)` from
`core/pdf.py`.  `arF` is the Arabic font name (the caller either passes one or
the function obtains it from `_register_arabic_font()`; both call sites in the
builders resolve to the same registered name, see the font model below). -/
def with_translation_html (sh : String → String) (enF arF : String)
    (label : String) : String :=
  match SKILL_TRANSLATIONS_AR.lookup label with
  | some tr =>
      "<font name=\"" ++ enF ++ "\">" ++ label ++ "</font> - <font name=\""
        ++ arF ++ "\">" ++ sh tr ++ "</font>"
  | Option.none => "<font name=\"" ++ enF ++ "\">" ++ label ++ "</font>"

/-- `SECTION_TRANSLATIONS_AR` from `core/pdf.py`. -/
def SECTION_TRANSLATIONS_AR : List (String × String) :=
  [ ("Technical Skills", "مهارات تقنية"),
    ("Physical Abilities", "القدرات البدنية"),
    ("Technical Understanding", "الفهم الفني"),
    ("Psychological and Social", "الجوانب النفسية والاجتماعية"),
    ("Average Level", "المستوى العام") ]

/-- `with_section_title_html(title, english_font_name, arabic_font_name)`
from `core/pdf.py`. -/
def with_section_title_html (sh : String → String) (enF arF : String)
    (title : String) : String :=
  match SECTION_TRANSLATIONS_AR.lookup title with
  | some tr =>
      "<font name=\"" ++ enF ++ "\">" ++ title ++ "</font> / <font name=\""
        ++ arF ++ "\">" ++ sh tr ++ "</font>"
  | Option.none => "<font name=\"" ++ enF ++ "\">" ++ title ++ "</font>"

/-- `RATING_TRANSLATIONS_AR` from `core/pdf.py`. -/
def RATING_TRANSLATIONS_AR : List (String × String) :=
  [ ("Bad", "سيئ"),
    ("Not bad", "ليس سيئًا"),
    ("Good", "جيد"),
    ("Very Good", "جيد جدًا"),
    ("Excellent", "ممتاز") ]

/-- `rating_bilingual_html(value)` from `core/pdf.py`.  The English part is
hard-coded to Helvetica in the source; `arF` is the Arabic font obtained from
`_register_arabic_font()`. -/
def rating_bilingual_html (sh : String → String) (arF : String)
    (v : PyVal) : String :=
  match RATING_TRANSLATIONS_AR.lookup (rating_label v) with
  | some ar =>
      "<font name=\"Helvetica\">" ++ rating_label v
        ++ "</font> / <font name=\"" ++ arF ++ "\">" ++ sh ar ++ "</font>"
  | Option.none => "<font name=\"Helvetica\">" ++ rating_label v ++ "</font>"

/-- `rating_bilingual_html_from_average(avg)` from `core/pdf.py`: it feeds the
label string returned by `rating_label_from_average` back into
`rating_bilingual_html`. -/
def rating_bilingual_html_from_average (sh : String → String) (arF : String)
    (avg : Option ℚ) : String :=
  rating_bilingual_html sh arF (PyVal.str (rating_label_from_average avg))

/-- Substring check on strings (whether `pat` occurs contiguously in `s`),
used to state content properties of rendered output. -/
def leadMatch : List Char → List Char → Bool
  | [], _ => true
  | _ :: _, [] => false
  | c :: cs, d :: ds => c = d && leadMatch cs ds

/-- Helper for `strHasSub`: does `pat` occur in the character list? -/
def hasSubList (pat : List Char) : List Char → Bool
  | [] => leadMatch pat []
  | d :: ds => leadMatch pat (d :: ds) || hasSubList pat ds

/-- Whether `pat` occurs as a contiguous substring of `s`. -/
def strHasSub (s pat : String) : Bool :=
  hasSubList pat.toList s.toList

/-- Spec-side rating mapping, written from the specification's words
`{1: Bad, 2: Not bad, 3: Good, 4: Very Good, 5: Excellent}` for comparison
with the code-side `rating_label`. -/
def specRatingLabel (n : ℤ) : String :=
  if n = 1 then "Bad"
  else if n = 2 then "Not bad"
  else if n = 3 then "Good"
  else if n = 4 then "Very Good"
  else if n = 5 then "Excellent"
  else "—"

/-- Spec-side clamp `clamp(x, lo, hi)` as used in the specification's
`rating_label(clamp(round(a),1,5))`. -/
def clampSpec (x lo hi : ℤ) : ℤ := min hi (max lo x)

/-! ### Font registration (`_register_arabic_font`) -/

/-- Oracles for `_register_arabic_font`: the module directory
(`Path(__file__).resolve().parent`), `Path.exists()` and whether
`pdfmetrics.registerFont` succeeds (it raises on an unusable file). -/
structure FontEnv where
  baseDir : String
  pathOk : String → Bool
  regOk : String → Bool

/-- The process-wide ReportLab font registry
(`pdfmetrics.getRegisteredFontNames()`). -/
structure FontState where
  registered : List String
deriving DecidableEq

/-- `local_fonts` from `_register_arabic_font` (bundled fonts, under the
module's `fonts/` directory; `/` models `pathlib`'s joining). -/
def local_fonts (fe : FontEnv) : List String :=
  [ fe.baseDir ++ "/fonts/NotoNaskhArabic-Regular.ttf",
    fe.baseDir ++ "/fonts/DejaVuSans.ttf" ]

/-- `windows_candidates` from `_register_arabic_font`.  The source writes
these as raw strings with doubled backslashes, so each separator is two
literal backslashes; reproduced as-is. -/
def windows_candidates : List String :=
  [ "C:\\\\Windows\\\\Fonts\\\\NotoNaskhArabic-Regular.ttf",
    "C:\\\\Windows\\\\Fonts\\\\arial.ttf",
    "C:\\\\Windows\\\\Fonts\\\\tahoma.ttf",
    "C:\\\\Windows\\\\Fonts\\\\times.ttf",
    "C:\\\\Windows\\\\Fonts\\\\segoeui.ttf",
    "C:\\\\Windows\\\\Fonts\\\\TraditionalArabic.ttf" ]

/-- `linux_candidates` from `_register_arabic_font`. -/
def linux_candidates : List String :=
  [ "/usr/share/fonts/truetype/noto/NotoNaskhArabic-Regular.ttf",
    "/usr/share/fonts/opentype/noto/NotoNaskhArabic-Regular.ttf",
    "/usr/share/fonts/truetype/dejavu/DejaVuSans.ttf",
    "/usr/share/fonts/truetype/ttf-dejavu/DejaVuSans.ttf",
    "/usr/share/fonts/truetype/freefont/FreeSans.ttf" ]

/-- `mac_candidates` from `_register_arabic_font`. -/
def mac_candidates : List String :=
  [ "/Library/Fonts/Arial Unicode.ttf",
    "/Library/Fonts/Arial Unicode MS.ttf",
    "/Library/Fonts/Tahoma.ttf",
    "/Library/Fonts/DejaVuSans.ttf" ]

/-- `candidates = local_fonts + windows_candidates + linux_candidates +
mac_candidates` from `_register_arabic_font`. -/
def font_candidates (fe : FontEnv) : List String :=
  local_fonts fe ++ windows_candidates ++ linux_candidates ++ mac_candidates

/-- `_register_arabic_font()` from `core/pdf.py`, as a function of the font
registry state: reuse the previously registered `"ArabicFont"` if present;
otherwise probe the candidates in order (a candidate is taken when the path
exists and `registerFont` does not raise) and return `"Helvetica"` when none
is usable.  The `rl_config.TTFSearchPath` mutation is presentation-only
(wrapped in its own `try`) and is not modelled. -/
def register_arabic_font (fe : FontEnv) (st : FontState) :
    String × FontState :=
  if st.registered.contains "ArabicFont" then ("ArabicFont", st)
  else
    match (font_candidates fe).find? (fun p => fe.pathOk p && fe.regOk p) with
    | some _ => ("ArabicFont", ⟨"ArabicFont" :: st.registered⟩)
    | Option.none => ("Helvetica", st)

/-! ### Images and the resolver fallback chain -/

/-- A ReportLab `Image` flowable, remembering where it came from and its
target dimensions. -/
inductive Image where
  | fromPath (p : String) (w h : ℕ)
  | fromBytes (data : List ℕ) (w h : ℕ)
deriving DecidableEq

/-- A Django `FieldFile` photo reference.  `pathAttr` is
`getattr(field, "path", None)` and `urlAttr` is `getattr(field, "url", None)`
(on the default local storage both attributes exist; `Option.none` models the
attribute being unavailable). -/
structure PhotoField where
  name : String
  pathAttr : Option String
  urlAttr : Option String
deriving DecidableEq

/-- Oracles for every external access the image helpers perform, plus the
relevant settings.  Each oracle may return a value or raise. -/
structure Env where
  /-- `Path(p).exists()` -/
  pathExists : String → Except PyErr Bool
  /-- `Path(p).is_file()` -/
  pathIsFile : String → Except PyErr Bool
  /-- `ImageReader(str(p))` validation of a filesystem image -/
  readerFromPath : String → Except PyErr Unit
  /-- `urlopen(url, timeout=6)` followed by `.read()` -/
  urlRead : String → Except PyErr (List ℕ)
  /-- `ImageReader(BytesIO(data))` validation of in-memory bytes -/
  readerFromBytes : List ℕ → Except PyErr Unit
  /-- `field.open("rb")` -/
  fieldOpen : PhotoField → Except PyErr Unit
  /-- `field.read()` -/
  fieldRead : PhotoField → Except PyErr (List ℕ)
  /-- `field.close()` -/
  fieldClose : PhotoField → Except PyErr Unit
  /-- `settings.MEDIA_ROOT` -/
  mediaRoot : String
  /-- `settings.PUBLIC_BASE_URL` (`""` when unset) -/
  publicBase : String
  /-- `settings.LOGO_URL` (`""` when unset) -/
  logoUrl : String
  /-- module directory of `core/pdf.py` -/
  moduleDir : String
  /-- `settings.BASE_DIR` -/
  baseDir : String
  /-- `Path.parent` on directory strings -/
  dirParent : String → String
  /-- `_shape_arabic`: best-effort shaping, the identity when the shaping
  dependency is unavailable -/
  shape : String → String
  /-- `styles["Heading3"].fontName` of the sample stylesheet -/
  h3FontName : String
  /-- `styles["Normal"].fontName` of the sample stylesheet -/
  normalFontName : String

/-- Python `try: c except Exception: return fallback` for an expression-level
computation: the caught computation never propagates an error. -/
def pyCatchAll {α : Type} (c : Except PyErr α) (fallback : α) :
    Except PyErr α :=
  match c with
  | Except.ok a => Except.ok a
  | Except.error _ => Except.ok fallback

/-- `_safe_image(path, width, height)` from `core/pdf.py`, with the exception
flow explicit: the body (existence check, file check, `ImageReader`
validation, `Image` construction) may raise at each oracle call, and the
surrounding `except Exception` converts any error to `None`. -/
def safe_image_exc (env : Env) (path : String) (w h : ℕ) :
    Except PyErr (Option Image) :=
  pyCatchAll
    (do
      let ex ← env.pathExists path
      if !ex then pure Option.none
      else do
        let isf ← env.pathIsFile path
        if !isf then pure Option.none
        else do
          let _ ← env.readerFromPath path
          pure (some (Image.fromPath path w h)))
    Option.none

/-- `_safe_image` as the caller sees it (it never raises; see
`safe_image_exc`). -/
def safe_image (env : Env) (path : String) (w h : ℕ) : Option Image :=
  match safe_image_exc env path w h with
  | Except.ok v => v
  | Except.error _ => Option.none

/-- `_url_image(url, width, height)` from `core/pdf.py`, with the exception
flow explicit. -/
def url_image_exc (env : Env) (url : String) (w h : ℕ) :
    Except PyErr (Option Image) :=
  pyCatchAll
    (do
      if !(url ≠ "" && (url.startsWith "http://" || url.startsWith "https://")) then
        pure Option.none
      else do
        let data ← env.urlRead url
        let _ ← env.readerFromBytes data
        pure (some (Image.fromBytes data w h)))
    Option.none

/-- `_url_image` as the caller sees it (it never raises; see
`url_image_exc`). -/
def url_image (env : Env) (url : String) (w h : ℕ) : Option Image :=
  match url_image_exc env url w h with
  | Except.ok v => v
  | Except.error _ => Option.none

/-- The `try: data = field.read() finally: field.close()` block of
`_image_from_field`: `close` runs whether or not `read` raised, and an
exception raised by `close` replaces one raised by `read`. -/
def tryFinallyRead (env : Env) (f : PhotoField) : Except PyErr (List ℕ) :=
  match env.fieldRead f, env.fieldClose f with
  | Except.ok d, Except.ok _ => Except.ok d
  | Except.ok _, Except.error e => Except.error e
  | Except.error e, Except.ok _ => Except.error e
  | Except.error _, Except.error e2 => Except.error e2

/-- `_image_from_field(field, width, height)` from `core/pdf.py`, with the
exception flow explicit. -/
def image_from_field_exc (env : Env) (f : PhotoField) (w h : ℕ) :
    Except PyErr (Option Image) :=
  pyCatchAll
    (do
      let _ ← env.fieldOpen f
      let data ← tryFinallyRead env f
      let _ ← env.readerFromBytes data
      pure (some (Image.fromBytes data w h)))
    Option.none

/-- `_image_from_field` as the caller sees it (it never raises; see
`image_from_field_exc`). -/
def image_from_field (env : Env) (f : PhotoField) (w h : ℕ) : Option Image :=
  match image_from_field_exc env f w h with
  | Except.ok v => v
  | Except.error _ => Option.none

/-- The logo candidate paths probed by `_logo_image` (module dir, its
`fonts/` subdir, the backend root's `core/` locations, and two monorepo
frontend locations), in source order. -/
def logo_candidates (env : Env) : List String :=
  let base := env.moduleDir
  let backendRoot := env.dirParent base
  let baseDir := env.baseDir
  [ base ++ "/logo.png",
    base ++ "/fonts/logo.png",
    backendRoot ++ "/core/logo.png",
    backendRoot ++ "/core/fonts/logo.png",
    env.dirParent baseDir ++ "/football-academy-frontend/public/logo.png",
    env.dirParent (env.dirParent baseDir)
      ++ "/football-academy-frontend/public/logo.png" ]

/-- First candidate path that `_safe_image` accepts. -/
def first_logo_hit (env : Env) (w h : ℕ) : List String → Option Image
  | [] => Option.none
  | p :: ps =>
    match safe_image env p w h with
    | some i => some i
    | Option.none => first_logo_hit env w h ps

/-- `_logo_image(width, height)` from `core/pdf.py`: probe the candidate
paths, then fall back to `settings.LOGO_URL`.  (The `hAlign` presentation
attribute is not modelled.) -/
def logo_image (env : Env) (w h : ℕ) : Option Image :=
  match first_logo_hit env w h (logo_candidates env) with
  | some i => some i
  | Option.none => url_image env env.logoUrl w h

/-- Python `str.lstrip("/")`. -/
def lstripSlash (s : String) : String :=
  String.mk (s.toList.dropWhile (fun c => c = '/'))

/-- `urljoin(base, rel)` in the shape the builders use it: `base` ends with
`"/"` and `rel` is a relative path with no scheme, where `urljoin` reduces to
concatenation. -/
def pyUrljoin (base rel : String) : String := base ++ rel

/-- The stages of the photo fallback chain, for stating which sources were
attempted. -/
inductive Stage where
  | storage
  | localPath
  | http
deriving DecidableEq

/-- The local path the builders derive for a photo:
`getattr(photo, "path", None)` or else `str(Path(settings.MEDIA_ROOT) /
photo.name)`. -/
def derived_path (env : Env) (f : PhotoField) : String :=
  match f.pathAttr with
  | some p => p
  | Option.none => env.mediaRoot ++ "/" ++ f.name

/-- The inline photo-resolution chain shared by `build_group_report`
(lines 365–380) and `build_player_report` (lines 454–469): storage bytes,
then local filesystem path, then `PUBLIC_BASE_URL` fetch, each tried only on
failure of the previous; paired with the list of stages attempted.
`Option.none` for the photo models a falsy (unset) `FieldFile`. -/
def resolve_photo_logged (env : Env) (photo : Option PhotoField) (w h : ℕ) :
    Option Image × List Stage :=
  match photo with
  | Option.none => (Option.none, [])
  | some f =>
    match image_from_field env f w h with
    | some i => (some i, [Stage.storage])
    | Option.none =>
      match safe_image env (derived_path env f) w h with
      | some i => (some i, [Stage.storage, Stage.localPath])
      | Option.none =>
        match f.urlAttr with
        | some url =>
          if url ≠ "" && env.publicBase ≠ "" && url.startsWith "/" then
            ( url_image env
                (pyUrljoin (env.publicBase ++ "/") (lstripSlash url)) w h,
              [Stage.storage, Stage.localPath, Stage.http] )
          else (Option.none, [Stage.storage, Stage.localPath])
        | Option.none => (Option.none, [Stage.storage, Stage.localPath])

/-- Result of the photo chain as the builders use it. -/
def resolve_photo (env : Env) (photo : Option PhotoField) (w h : ℕ) :
    Option Image :=
  (resolve_photo_logged env photo w h).1

/-! ### ORM entities consumed by the reports -/

/-- An `Evaluation` row: integer ratings (nullable in principle), the derived
average, timestamps used for "latest" ordering, notes and coach name. -/
structure Evaluation where
  ball_control : Option ℤ
  passing : Option ℤ
  dribbling : Option ℤ
  shooting : Option ℤ
  using_both_feet : Option ℤ
  speed : Option ℤ
  agility : Option ℤ
  endurance : Option ℤ
  strength : Option ℤ
  positioning : Option ℤ
  decision_making : Option ℤ
  game_awareness : Option ℤ
  teamwork : Option ℤ
  respect : Option ℤ
  sportsmanship : Option ℤ
  confidence : Option ℤ
  leadership : Option ℤ
  attendance_and_punctuality : Option ℤ
  average_rating : Option ℚ
  notes : String
  coach : String
  evaluated_at : ℤ
  updated_at : ℤ
deriving DecidableEq

/-- A `Player` row as read by the reports (`player.group.name` flattened to
`group_name`; `phone` is `""` when absent, matching Python falsiness). -/
structure Player where
  name : String
  age : ℕ
  phone : String
  photo : Option PhotoField
  group_name : String
  evaluations : List Evaluation
deriving DecidableEq

/-- A `Group` row with its players in the underlying query's order (named
`PlayerGroup` here because Lean's library already defines `Group`). -/
structure PlayerGroup where
  name : String
  coach : String
  players : List Player
deriving DecidableEq

/-- `_latest_evaluation(player)` from `core/pdf.py`:
`player.evaluations.order_by("-evaluated_at", "-updated_at").first()`,
i.e. the evaluation maximal in the lexicographic (evaluated_at, updated_at)
order, or `None` when the player has no evaluations. -/
def latest_evaluation (p : Player) : Option Evaluation :=
  p.evaluations.foldl
    (fun acc e =>
      match acc with
      | Option.none => some e
      | some a =>
        if a.evaluated_at < e.evaluated_at
            ∨ (a.evaluated_at = e.evaluated_at ∧ a.updated_at < e.updated_at)
        then some e else some a)
    Option.none

/-! ### Flowables, stories and the layout engine -/

/-- A cell of a ReportLab `Table`: a plain string (`""` is the empty
placeholder), a `Paragraph` (inline HTML plus style name), or an `Image`. -/
inductive Cell where
  | text (s : String)
  | para (html : String) (style : String)
  | image (i : Image)
deriving DecidableEq

/-- A flowable of the story handed to the layout engine.  `TableStyle`
presentation attributes (grid, padding, alignment) carry no document content
and are not modelled. -/
inductive Flowable where
  | para (html : String) (style : String)
  | spacer (w h : ℕ)
  | table (rows : List (List Cell))
deriving DecidableEq

/-- `img if img else ""`: an image cell or the empty placeholder. -/
def cellOfOpt : Option Image → Cell
  | some i => Cell.image i
  | Option.none => Cell.text ""

/-- Outcome of `SimpleDocTemplate(...).build(story)`: success with the bytes
written to the output file, or an `OSError` raised after having written
`wrote` (possibly `[]`) to the output file. -/
inductive BuildResult where
  | ok (out : List ℕ)
  | oserr (wrote : List ℕ)
deriving DecidableEq

/-- The abstract layout engine: what `build` does on a given story. -/
structure Engine where
  build : List Flowable → BuildResult

/-- An engine that serializes a document at all produces non-empty bytes
(every ReportLab PDF at least carries its header/trailer). -/
def Engine.nonEmptyOnSuccess (eng : Engine) : Prop :=
  ∀ s b, eng.build s = BuildResult.ok b → b ≠ []

/-! ### `build_group_report` -/

/-- Header row of the group summary table. -/
def groupHeaderRow : List Cell :=
  [Cell.text "Photo", Cell.text "Player", Cell.text "Phone", Cell.text "Avg"]

/-- One loop iteration of `build_group_report`'s summary-table loop: photo
via the fallback chain, name, phone, then the latest evaluation's average
label or `"-"`. -/
def group_row (env : Env) (p : Player) : List Cell :=
  let img := resolve_photo env p.photo 50 50
  [cellOfOpt img, Cell.text p.name, Cell.text p.phone]
    ++ [ match latest_evaluation p with
         | some ev => Cell.text (rating_label_from_average ev.average_rating)
         | Option.none => Cell.text "-" ]

/-- The `data` list of `build_group_report`: header row, then one appended
row per player of the group, in query order (the `for p in
group.players...all()` loop). -/
def group_table_data (env : Env) (g : PlayerGroup) : List (List Cell) :=
  g.players.foldl (fun data p => data ++ [group_row env p]) [groupHeaderRow]

/-- The story `build_group_report` submits to the layout engine: header table
(logo / title / coach), spacer, summary table. -/
def group_story (env : Env) (g : PlayerGroup) : List Flowable :=
  [ Flowable.table
      [ [cellOfOpt (logo_image env 60 60),
         Cell.para ("Group Report: " ++ g.name) "Title"],
        [Cell.text "", Cell.para ("Coach: " ++ g.coach) "Heading2"] ],
    Flowable.spacer 1 12,
    Flowable.table (group_table_data env g) ]

/-- The fallback story of `build_group_report`'s `except OSError` branch. -/
def group_fallback_story (g : PlayerGroup) : List Flowable :=
  [ Flowable.para "Group Report" "Title",
    Flowable.spacer 1 12,
    Flowable.para ("Group: " ++ g.name) "Normal" ]

/-- `build_group_report(group)` from `core/pdf.py`.  On success the caller
gets the bytes of the main document; on `OSError` the fallback document is
rendered into a fresh buffer and its bytes returned; an `OSError` from the
fallback build itself propagates (modelled as `Except.error`). -/
def build_group_report (env : Env) (eng : Engine) (g : PlayerGroup) :
    Except PyErr (List ℕ) :=
  match eng.build (group_story env g) with
  | BuildResult.ok out => Except.ok out
  | BuildResult.oserr _ =>
    match eng.build (group_fallback_story g) with
    | BuildResult.ok fb => Except.ok fb
    | BuildResult.oserr _ => Except.error "OSError"

/-! ### `build_player_report` -/

/-- The `details_lines` paragraph body: name, group, age, and phone when
truthy, joined by `<br/>`. -/
def player_details_html (p : Player) : String :=
  String.intercalate "<br/>"
    ((["Name: " ++ p.name, "Group: " ++ p.group_name,
       "Age: " ++ toString p.age])
      ++ (if p.phone ≠ "" then ["Phone: " ++ p.phone] else []))

/-- One skill row of a rating table: bilingual label paragraph
(`with_translation_para`, i.e. `with_translation_html` with Helvetica for the
English part) and bilingual rating paragraph. -/
def skill_row (sh : String → String) (arF : String) (label : String)
    (v : Option ℤ) : List Cell :=
  [ Cell.para (with_translation_html sh "Helvetica" arF label) "ArabicLabel",
    Cell.para
      (rating_bilingual_html sh arF
        (match v with | some n => PyVal.int n | Option.none => PyVal.none))
      "NormalSmall" ]

/-- The evaluation section of the player story (the `if ev:` branch):
four rating tables with their bilingual section titles, the Average Level
line, the attendance line, the coach line, and the optional notes. -/
def eval_section (sh : String → String) (arF h3F normF : String)
    (ev : Evaluation) : List Flowable :=
  [ Flowable.para (with_section_title_html sh h3F arF "Technical Skills")
      "SmallH3",
    Flowable.table
      ( [Cell.text "Skill", Cell.text "Rating"]
        :: [ skill_row sh arF "Ball control" ev.ball_control,
             skill_row sh arF "Passing" ev.passing,
             skill_row sh arF "Dribbling" ev.dribbling,
             skill_row sh arF "Shooting" ev.shooting,
             skill_row sh arF "Using both feet" ev.using_both_feet ] ),
    Flowable.spacer 1 6,
    Flowable.para (with_section_title_html sh h3F arF "Physical Abilities")
      "SmallH3",
    Flowable.table
      ( [Cell.text "Attribute", Cell.text "Rating"]
        :: [ skill_row sh arF "Speed" ev.speed,
             skill_row sh arF "Agility" ev.agility,
             skill_row sh arF "Endurance" ev.endurance,
             skill_row sh arF "Strength" ev.strength ] ),
    Flowable.spacer 1 6,
    Flowable.para
      (with_section_title_html sh h3F arF "Technical Understanding") "SmallH3",
    Flowable.table
      ( [Cell.text "Aspect", Cell.text "Rating"]
        :: [ skill_row sh arF "Positioning" ev.positioning,
             skill_row sh arF "Decision making" ev.decision_making,
             skill_row sh arF "Game awareness" ev.game_awareness,
             skill_row sh arF "Teamwork" ev.teamwork ] ),
    Flowable.spacer 1 6,
    Flowable.para
      (with_section_title_html sh h3F arF "Psychological and Social")
      "SmallH3",
    Flowable.table
      ( [Cell.text "Aspect", Cell.text "Rating"]
        :: [ skill_row sh arF "Respect" ev.respect,
             skill_row sh arF "Sportsmanship" ev.sportsmanship,
             skill_row sh arF "Confidence" ev.confidence,
             skill_row sh arF "Leadership" ev.leadership ] ),
    Flowable.spacer 1 6,
    Flowable.para
      (with_section_title_html sh h3F arF "Average Level" ++ ": "
        ++ rating_bilingual_html_from_average sh arF ev.average_rating)
      "SmallH3",
    Flowable.para
      (with_translation_html sh normF arF "Attendance and punctuality" ++ ": "
        ++ rating_bilingual_html sh arF
             (match ev.attendance_and_punctuality with
              | some n => PyVal.int n
              | Option.none => PyVal.none))
      "NormalSmall",
    Flowable.para ("Coach: " ++ ev.coach) "NormalSmall" ]
  ++ (if ev.notes ≠ "" then
        [Flowable.spacer 1 4, Flowable.para ("Notes: " ++ ev.notes)
          "NormalSmall"]
      else [])

/-- The story `build_player_report` submits to the layout engine: header
table (logo / title+details / photo), spacer, evaluation section or the
"no evaluation" placeholder, then the two fixed Arabic prompt headings. -/
def player_story (env : Env) (fe : FontEnv) (st : FontState) (p : Player) :
    List Flowable :=
  let arF := (register_arabic_font fe st).1
  let img := resolve_photo env p.photo 100 100
  [ Flowable.table
      [ [cellOfOpt (logo_image env 60 60),
         Cell.para "Player Report" "SmallTitle",
         cellOfOpt img],
        [Cell.text "", Cell.para (player_details_html p) "NormalSmall",
         Cell.text ""] ],
    Flowable.spacer 1 8 ]
  ++ (match latest_evaluation p with
      | some ev => eval_section env.shape arF env.h3FontName env.normalFontName ev
      | Option.none => [Flowable.para "No evaluation available." "Normal"])
  ++ [ Flowable.spacer 1 10,
       Flowable.para (env.shape "رأي المدرب") "ArabicRightHeading",
       Flowable.spacer 1 6,
       Flowable.para (env.shape "ما يحتاج اللاعب تطويره") "ArabicRightHeading" ]

/-- The fallback story of `build_player_report`'s `except OSError` branch. -/
def player_fallback_story (p : Player) : List Flowable :=
  [ Flowable.para "Player Report" "Title",
    Flowable.spacer 1 12,
    Flowable.para ("Name: " ++ p.name) "Normal" ]

/-- `build_player_report(player)` from `core/pdf.py`.  On success the caller
gets the bytes of the main document.  On `OSError` the fallback document is
built into the *same* `buffer` the failed build wrote to, so the returned
`buffer.getvalue()` is whatever the failed build had written followed by the
fallback document's bytes; an `OSError` from the fallback build itself
propagates. -/
def build_player_report (env : Env) (fe : FontEnv) (st : FontState)
    (eng : Engine) (p : Player) : Except PyErr (List ℕ) :=
  match eng.build (player_story env fe st p) with
  | BuildResult.ok out => Except.ok out
  | BuildResult.oserr wrote =>
    match eng.build (player_fallback_story p) with
    | BuildResult.ok fb => Except.ok (wrote ++ fb)
    | BuildResult.oserr _ => Except.error "OSError"

/-! ## Claims -/

/-- Claim C2, counterexample: the claim says integers outside `[1,5]` map to
the unknown marker, but `rating_label(0)` returns `"0"` (the
`RATING_LABELS.get` default is `str(value)`, not `"—"`). -/
theorem c2_rating_label_cex :
    rating_label (PyVal.int 0) = "0" ∧ rating_label (PyVal.int 0) ≠ "—" := by
  decide

/-- Claim C2 (amended): for integers in `[1,5]`, `rating_label` returns the
fixed label of the mapping; for integers outside `[1,5]` it returns the
decimal string of the value (Python `str(value)`), not the unknown marker;
for an absent (`None`) value it returns the unknown marker `"—"`. -/
theorem c2_rating_label_amended (n : ℤ) :
    (1 ≤ n → n ≤ 5 → rating_label (PyVal.int n) = specRatingLabel n)
    ∧ ((n < 1 ∨ 5 < n) → rating_label (PyVal.int n) = toString n)
    ∧ rating_label PyVal.none = "—" := by
  refine ⟨?_, ?_, rfl⟩
  · intro h1 h5
    interval_cases n <;> decide
  · intro h
    have b1 : (n == (1 : ℤ)) = false := by simpa using (by omega : ¬ n = 1)
    have b2 : (n == (2 : ℤ)) = false := by simpa using (by omega : ¬ n = 2)
    have b3 : (n == (3 : ℤ)) = false := by simpa using (by omega : ¬ n = 3)
    have b4 : (n == (4 : ℤ)) = false := by simpa using (by omega : ¬ n = 4)
    have b5 : (n == (5 : ℤ)) = false := by simpa using (by omega : ¬ n = 5)
    simp [rating_label, pyInt, RATING_LABELS, List.lookup, pyStr,
      b1, b2, b3, b4, b5]

/-- Witness for the amended Claim C2 at concrete inputs 3 (in range) and
0 (out of range). -/
theorem c2_rating_label_amended_witness :
    rating_label (PyVal.int 3) = specRatingLabel 3
    ∧ rating_label (PyVal.int 0) = toString (0 : ℤ) :=
  ⟨(c2_rating_label_amended 3).1 (by decide) (by decide),
   (c2_rating_label_amended 0).2.1 (Or.inl (by decide))⟩

/-- Claim C4: for every average `a`, `rating_label_from_average(a)` equals
`rating_label(clamp(round(a),1,5))`, and it is `"—"` for an absent average.
(The source computes `max(1, min(5, round(float(avg))))`, which coincides
with the clamp.) -/
theorem c4_rating_label_from_average_clamp (aOpt : Option ℚ) :
    rating_label_from_average aOpt =
      (match aOpt with
       | Option.none => "—"
       | some a => rating_label (PyVal.int (clampSpec (pyRound a) 1 5))) := by
  cases aOpt with
  | none => rfl
  | some a =>
    have h : max 1 (min 5 (pyRound a)) = clampSpec (pyRound a) 1 5 := by
      unfold clampSpec
      omega
    simp [rating_label_from_average, h]

/-- Helper for Claim C3: whenever `rating_label` maps a string to `"—"`,
`rating_bilingual_html` produces exactly the unknown-marker markup. -/
theorem rbh_at_nonnumeric (sh : String → String) (arF : String) (s : String)
    (hs : rating_label (PyVal.str s) = "—") :
    rating_bilingual_html sh arF (PyVal.str s)
      = "<font name=\"Helvetica\">—</font>" := by
  unfold rating_bilingual_html
  rw [hs]
  rfl

/-- Helper for Claim C3: every clamped rating `r ∈ [1,5]` produces a label
string that `rating_bilingual_html`'s inner `rating_label` cannot convert
back to an integer, so the bilingual markup degenerates to the unknown
marker. -/
theorem rbh_label_roundtrip (sh : String → String) (arF : String) (r : ℤ)
    (h1 : 1 ≤ r) (h5 : r ≤ 5) :
    rating_bilingual_html sh arF (PyVal.str (rating_label (PyVal.int r)))
      = "<font name=\"Helvetica\">—</font>" := by
  interval_cases r
  · rw [show rating_label (PyVal.int 1) = "Bad" from by decide]
    exact rbh_at_nonnumeric sh arF "Bad" (by decide)
  · rw [show rating_label (PyVal.int 2) = "Not bad" from by decide]
    exact rbh_at_nonnumeric sh arF "Not bad" (by decide)
  · rw [show rating_label (PyVal.int 3) = "Good" from by decide]
    exact rbh_at_nonnumeric sh arF "Good" (by decide)
  · rw [show rating_label (PyVal.int 4) = "Very Good" from by decide]
    exact rbh_at_nonnumeric sh arF "Very Good" (by decide)
  · rw [show rating_label (PyVal.int 5) = "Excellent" from by decide]
    exact rbh_at_nonnumeric sh arF "Excellent" (by decide)

/-- Claim C3: for every non-`None` average, the player report's
Average-Level markup `rating_bilingual_html_from_average` renders the unknown
marker (because the label string is fed back into `rating_label`, whose
string-to-int conversion fails), and that markup contains none of the five
rating labels. -/
theorem c3_average_line_always_unknown (sh : String → String) (arF : String)
    (a : ℚ) :
    rating_bilingual_html_from_average sh arF (some a)
      = "<font name=\"Helvetica\">—</font>"
    ∧ strHasSub "<font name=\"Helvetica\">—</font>" "Bad" = false
    ∧ strHasSub "<font name=\"Helvetica\">—</font>" "Not bad" = false
    ∧ strHasSub "<font name=\"Helvetica\">—</font>" "Good" = false
    ∧ strHasSub "<font name=\"Helvetica\">—</font>" "Very Good" = false
    ∧ strHasSub "<font name=\"Helvetica\">—</font>" "Excellent" = false := by
  refine ⟨?_, by decide, by decide, by decide, by decide, by decide⟩
  have hb : 1 ≤ max 1 (min 5 (pyRound a)) := le_max_left _ _
  have ht : max 1 (min 5 (pyRound a)) ≤ 5 := by
    apply max_le
    · norm_num
    · exact min_le_left _ _
  show rating_bilingual_html sh arF
      (PyVal.str (rating_label (PyVal.int (max 1 (min 5 (pyRound a))))))
    = "<font name=\"Helvetica\">—</font>"
  exact rbh_label_roundtrip sh arF _ hb ht

/-- A concrete, visibly non-identity shaper, standing in for `_shape_arabic`
when the shaping dependency is available (shaping reorders and joins glyphs,
so it is not the identity). -/
def shapeDemo : String → String := fun s => "SHAPED:" ++ s

/-- Claim C7, counterexample: for a label absent from the table
(`"Heading"`), `with_translation_html`'s output is the label wrapped in a
font tag, not the label alone; and for a present label (`"Passing"`),
`with_translation` appends the raw translation, so its output need not
contain the *shaped* translation. -/
theorem c7_bilingual_cex :
    SKILL_TRANSLATIONS_AR.lookup "Heading" = Option.none
    ∧ with_translation_html shapeDemo "Helvetica" "ArabicFont" "Heading"
        ≠ "Heading"
    ∧ SKILL_TRANSLATIONS_AR.lookup "Passing" = some "التمرير"
    ∧ strHasSub (with_translation "Passing") (shapeDemo "التمرير") = false := by
  decide

/-- Claim C7 (amended): for a label present in the translation table,
`with_translation` appends the raw translation in parentheses while
`with_translation_text` and `with_translation_html` append the shaped
translation (the html renderer wrapping both parts in font tags); for a label
absent from the table, `with_translation` and `with_translation_text` return
the English label exactly, while `with_translation_html` returns the English
label wrapped in a font tag and nothing else. -/
theorem c7_bilingual_renderers_amended (sh : String → String)
    (enF arF label : String) :
    (∀ tr, SKILL_TRANSLATIONS_AR.lookup label = some tr →
        with_translation label = label ++ " (" ++ tr ++ ")"
        ∧ with_translation_text sh label = label ++ " (" ++ sh tr ++ ")"
        ∧ with_translation_html sh enF arF label
            = "<font name=\"" ++ enF ++ "\">" ++ label
              ++ "</font> - <font name=\"" ++ arF ++ "\">" ++ sh tr
              ++ "</font>")
    ∧ (SKILL_TRANSLATIONS_AR.lookup label = Option.none →
        with_translation label = label
        ∧ with_translation_text sh label = label
        ∧ with_translation_html sh enF arF label
            = "<font name=\"" ++ enF ++ "\">" ++ label ++ "</font>") := by
  constructor
  · intro tr h
    refine ⟨?_, ?_, ?_⟩ <;>
      simp [with_translation, with_translation_text, with_translation_html, h]
  · intro h
    refine ⟨?_, ?_, ?_⟩ <;>
      simp [with_translation, with_translation_text, with_translation_html, h]

/-- Witness for the amended Claim C7 at a present label (`"Passing"`) and an
absent one (`"Heading"`). -/
theorem c7_bilingual_renderers_amended_witness :
    with_translation "Passing" = "Passing" ++ " (" ++ "التمرير" ++ ")"
    ∧ with_translation "Heading" = "Heading" :=
  ⟨((c7_bilingual_renderers_amended shapeDemo "Helvetica" "ArabicFont"
       "Passing").1 "التمرير" (by decide)).1,
   ((c7_bilingual_renderers_amended shapeDemo "Helvetica" "ArabicFont"
       "Heading").2 (by decide)).1⟩

/-- Helper for Claim C6: a computation guarded by `except Exception` never
surfaces an error. -/
theorem pyCatchAll_isOk {α : Type} (c : Except PyErr α) (d : α) :
    ∃ r, pyCatchAll c d = Except.ok r := by
  cases c with
  | ok a => exact ⟨a, rfl⟩
  | error _ => exact ⟨d, rfl⟩

/-- Claim C6: each image helper is total on the caller-visible interface —
whatever the path, storage field, or URL oracles do (including raising on
every access), the helper returns normally with an image or the absent
marker, never an error. -/
theorem c6_image_helpers_total (env : Env) (path url : String)
    (f : PhotoField) (w h : ℕ) :
    (∃ r, safe_image_exc env path w h = Except.ok r)
    ∧ (∃ r, url_image_exc env url w h = Except.ok r)
    ∧ (∃ r, image_from_field_exc env f w h = Except.ok r) :=
  ⟨pyCatchAll_isOk _ _, pyCatchAll_isOk _ _, pyCatchAll_isOk _ _⟩

/-- Claim C5: the photo fallback chain tries storage bytes, then the derived
local path, then the `PUBLIC_BASE_URL` fetch (only when a base URL is
configured and the field's URL is relative), takes the first success without
attempting later stages, and yields the absent marker when everything
fails. -/
theorem c5_photo_resolution_order (env : Env) (f : PhotoField) (w h : ℕ) :
    resolve_photo_logged env Option.none w h = (Option.none, [])
    ∧ (∀ i, image_from_field env f w h = some i →
        resolve_photo_logged env (some f) w h = (some i, [Stage.storage]))
    ∧ (∀ i, image_from_field env f w h = Option.none →
        safe_image env (derived_path env f) w h = some i →
        resolve_photo_logged env (some f) w h
          = (some i, [Stage.storage, Stage.localPath]))
    ∧ (∀ url, image_from_field env f w h = Option.none →
        safe_image env (derived_path env f) w h = Option.none →
        f.urlAttr = some url →
        (url ≠ "" && env.publicBase ≠ "" && url.startsWith "/") = true →
        resolve_photo_logged env (some f) w h
          = (url_image env
               (pyUrljoin (env.publicBase ++ "/") (lstripSlash url)) w h,
             [Stage.storage, Stage.localPath, Stage.http]))
    ∧ (image_from_field env f w h = Option.none →
        safe_image env (derived_path env f) w h = Option.none →
        (match f.urlAttr with
         | some url =>
             (url ≠ "" && env.publicBase ≠ "" && url.startsWith "/") = false
         | Option.none => True) →
        resolve_photo_logged env (some f) w h
          = (Option.none, [Stage.storage, Stage.localPath])) := by
  refine ⟨rfl, ?_, ?_, ?_, ?_⟩
  · intro i hi
    simp [resolve_photo_logged, hi]
  · intro i h0 hi
    simp [resolve_photo_logged, h0, hi]
  · intro url h0 h1 hu hcond
    simp [resolve_photo_logged, h0, h1, hu, hcond]
    have hc := hcond
    simp at hc
    exact ⟨hc.1.1, hc.1.2, hc.2⟩
  · intro h0 h1 hcond
    cases hu : f.urlAttr with
    | none => simp [resolve_photo_logged, h0, h1, hu]
    | some url =>
      rw [hu] at hcond
      simp [resolve_photo_logged, h0, h1, hu]
      intro hne hbe
      simpa [hne, hbe] using hcond

/-- An environment whose storage oracle serves the photo bytes (and whose
filesystem and HTTP oracles raise), for exercising the first stage of the
chain. -/
def envStorageOk : Env :=
  { pathExists := fun _ => Except.error "OSError",
    pathIsFile := fun _ => Except.error "OSError",
    readerFromPath := fun _ => Except.error "OSError",
    urlRead := fun _ => Except.error "URLError",
    readerFromBytes := fun _ => Except.ok (),
    fieldOpen := fun _ => Except.ok (),
    fieldRead := fun _ => Except.ok [9],
    fieldClose := fun _ => Except.ok (),
    mediaRoot := "/app/media",
    publicBase := "",
    logoUrl := "",
    moduleDir := "/app/core",
    baseDir := "/app",
    dirParent := fun _ => "/app",
    shape := fun s => s,
    h3FontName := "Helvetica-BoldOblique",
    normalFontName := "Helvetica" }

/-- A concrete photo field. -/
def photoDemo : PhotoField :=
  { name := "p.png", pathAttr := Option.none, urlAttr := some "/media/p.png" }

/-- Witness for Claim C5: with the storage stage succeeding, the chain stops
at the first stage. -/
theorem c5_photo_resolution_order_witness :
    resolve_photo_logged envStorageOk (some photoDemo) 50 50
      = (some (Image.fromBytes [9] 50 50), [Stage.storage]) :=
  (c5_photo_resolution_order envStorageOk photoDemo 50 50).2.1
    (Image.fromBytes [9] 50 50) (by decide)

/-- Claim C10: on a fixed filesystem/registry behaviour, a second call to
`_register_arabic_font` returns the same name and leaves the registry
unchanged; when no candidate is usable and nothing was registered before, the
result is the generic fallback `"Helvetica"`; and the probed candidate list is
the bundled fonts followed by the Windows, Linux and macOS system
directories, in that order. -/
theorem c10_register_arabic_font_spec (fe : FontEnv) (st : FontState) :
    (register_arabic_font fe (register_arabic_font fe st).2).1
        = (register_arabic_font fe st).1
    ∧ (register_arabic_font fe (register_arabic_font fe st).2).2
        = (register_arabic_font fe st).2
    ∧ (st.registered.contains "ArabicFont" = false →
        (font_candidates fe).find? (fun p => fe.pathOk p && fe.regOk p)
          = Option.none →
        register_arabic_font fe st = ("Helvetica", st))
    ∧ font_candidates fe
        = local_fonts fe ++ windows_candidates ++ linux_candidates
            ++ mac_candidates := by
  have key : register_arabic_font fe (register_arabic_font fe st).2
      = register_arabic_font fe st := by
    by_cases hc : st.registered.contains "ArabicFont"
    · have hm : "ArabicFont" ∈ st.registered := by simpa using hc
      simp [register_arabic_font, hm]
    · have hm : "ArabicFont" ∉ st.registered := by simpa using hc
      cases hf : (font_candidates fe).find? (fun p => fe.pathOk p && fe.regOk p) with
      | none => simp [register_arabic_font, hm, hf]
      | some p => simp [register_arabic_font, hm, hf]
  refine ⟨by rw [key], by rw [key], ?_, rfl⟩
  intro hc hf
  have hm : "ArabicFont" ∉ st.registered := by simpa using hc
  simp [register_arabic_font, hm, hf]

/-- A font environment in which no candidate path exists. -/
def feNoFonts : FontEnv :=
  { baseDir := "/app/core", pathOk := fun _ => false, regOk := fun _ => false }

/-- Witness for Claim C10: with no usable candidate and an empty registry,
the registration falls back to `"Helvetica"`. -/
theorem c10_register_arabic_font_spec_witness :
    register_arabic_font feNoFonts ⟨[]⟩ = ("Helvetica", ⟨[]⟩) :=
  (c10_register_arabic_font_spec feNoFonts ⟨[]⟩).2.2.1 (by decide) (by decide)

/-- Helper for Claim C9: appending one element per list item in a fold is a
map. -/
theorem foldl_append_map {α β : Type} (f : α → β) (l : List α) :
    ∀ init : List β,
      l.foldl (fun d p => d ++ [f p]) init = init ++ l.map f := by
  induction l with
  | nil => intro init; simp
  | cons p t ih => intro init; simp [List.foldl, ih]

/-- Claim C9: the group summary table is the header row followed by exactly
one data row per player of the group, in the underlying query's order. -/
theorem c9_group_table_rows (env : Env) (g : PlayerGroup) :
    group_table_data env g = groupHeaderRow :: g.players.map (group_row env)
    ∧ (group_table_data env g).length = g.players.length + 1 := by
  have h : group_table_data env g
      = groupHeaderRow :: g.players.map (group_row env) := by
    unfold group_table_data
    rw [foldl_append_map]
    rfl
  refine ⟨h, ?_⟩
  rw [h]
  simp

/-- Whether a flowable is the "no evaluation" placeholder paragraph. -/
def isNoEvalPara (fl : Flowable) : Bool :=
  decide (fl = Flowable.para "No evaluation available." "Normal")

/-- Whether a table header row is one of the four rating-table headers
(`["Skill","Rating"]`, `["Attribute","Rating"]`, `["Aspect","Rating"]`). -/
def isRatingHeader : List Cell → Bool
  | [c1, c2] =>
      (c1 == Cell.text "Skill" || c1 == Cell.text "Attribute"
        || c1 == Cell.text "Aspect") && c2 == Cell.text "Rating"
  | _ => false

/-- Whether a flowable is one of the four rating tables of the player
report. -/
def isRatingTable : Flowable → Bool
  | Flowable.table (r :: _) => isRatingHeader r
  | _ => false

/-- Claim C8: for a player with zero evaluations, `build_player_report`
returns (non-empty, by the engine's non-emptiness) bytes of a story that
contains the "no evaluation" placeholder and none of the four rating
tables. -/
theorem c8_player_report_no_evaluations (env : Env) (fe : FontEnv)
    (st : FontState) (eng : Engine) (p : Player) (out : List ℕ)
    (hwf : eng.nonEmptyOnSuccess)
    (hev : p.evaluations = [])
    (hb : eng.build (player_story env fe st p) = BuildResult.ok out) :
    build_player_report env fe st eng p = Except.ok out
    ∧ out ≠ []
    ∧ (player_story env fe st p).any isNoEvalPara = true
    ∧ (player_story env fe st p).all (fun fl => !isRatingTable fl) = true := by
  have hle : latest_evaluation p = Option.none := by
    simp [latest_evaluation, hev]
  refine ⟨?_, hwf _ _ hb, ?_, ?_⟩
  · unfold build_player_report
    rw [hb]
  · simp [player_story, hle, isNoEvalPara]
  · simp [player_story, hle, isRatingTable, isRatingHeader]

/-- An engine that succeeds on every story with the fixed bytes `[1]`. -/
def engOkOne : Engine := ⟨fun _ => BuildResult.ok [1]⟩

/-- A concrete player with no photo, no phone, and no evaluations. -/
def playerNoEval : Player :=
  { name := "P", age := 7, phone := "", photo := Option.none,
    group_name := "G", evaluations := [] }

/-- Witness for Claim C8 at a concrete evaluation-free player and a
succeeding engine. -/
theorem c8_player_report_no_evaluations_witness :
    build_player_report envStorageOk feNoFonts ⟨[]⟩ engOkOne playerNoEval
      = Except.ok [1]
    ∧ ([1] : List ℕ) ≠ []
    ∧ (player_story envStorageOk feNoFonts ⟨[]⟩ playerNoEval).any isNoEvalPara
        = true
    ∧ (player_story envStorageOk feNoFonts ⟨[]⟩ playerNoEval).all
        (fun fl => !isRatingTable fl) = true :=
  c8_player_report_no_evaluations envStorageOk feNoFonts ⟨[]⟩ engOkOne
    playerNoEval [1]
    (by
      intro s b hsb
      have hb1 : b = [1] := by
        have : BuildResult.ok [1] = BuildResult.ok b := hsb
        cases this
        rfl
      rw [hb1]
      decide)
    rfl rfl

/-- Decidable equality on `Except`, for evaluating builder results on
concrete inputs. -/
instance {ε α : Type} [DecidableEq ε] [DecidableEq α] :
    DecidableEq (Except ε α) := fun a b =>
  match a, b with
  | Except.ok x, Except.ok y =>
    if h : x = y then isTrue (by rw [h])
    else isFalse (by intro hc; cases hc; exact h rfl)
  | Except.error e, Except.error e2 =>
    if h : e = e2 then isTrue (by rw [h])
    else isFalse (by intro hc; cases hc; exact h rfl)
  | Except.ok _, Except.error _ => isFalse (by intro hc; cases hc)
  | Except.error _, Except.ok _ => isFalse (by intro hc; cases hc)

/-- An engine that raises `OSError` (after writing `[7]`) on every story
except the given player's fallback story, which it serializes to `[1]`. -/
def engFailsMain (p : Player) : Engine :=
  ⟨fun s =>
    if s = player_fallback_story p then BuildResult.ok [1]
    else BuildResult.oserr [7]⟩

/-- Claim C1, counterexample: when the player report's main build raises
`OSError` after writing `[7]`, the fallback is rendered into the *same*
buffer, so `build_player_report` returns `[7] ++ [1]` — the partial output is
not discarded and the result is not the fallback document's bytes `[1]`. -/
theorem c1_player_fallback_cex :
    (engFailsMain playerNoEval).build
        (player_story envStorageOk feNoFonts ⟨[]⟩ playerNoEval)
      = BuildResult.oserr [7]
    ∧ (engFailsMain playerNoEval).build (player_fallback_story playerNoEval)
      = BuildResult.ok [1]
    ∧ build_player_report envStorageOk feNoFonts ⟨[]⟩
        (engFailsMain playerNoEval) playerNoEval
      = Except.ok [7, 1]
    ∧ (Except.ok [7, 1] : Except PyErr (List ℕ)) ≠ Except.ok [1] := by
  decide

/-- Claim C1 (amended): when the main build raises `OSError`,
`build_group_report` renders the fallback into a fresh buffer and returns
exactly the fallback document's bytes, whereas `build_player_report` reuses
the same buffer, returning whatever the failed build wrote followed by the
fallback document's bytes (equal to the fallback alone only when the failed
build wrote nothing); in both cases, when the fallback build succeeds, the
caller receives bytes rather than an exception. -/
theorem c1_fallback_amended (env : Env) (fe : FontEnv) (st : FontState)
    (eng : Engine) (g : PlayerGroup) (p : Player) :
    (∀ w fb, eng.build (group_story env g) = BuildResult.oserr w →
        eng.build (group_fallback_story g) = BuildResult.ok fb →
        build_group_report env eng g = Except.ok fb)
    ∧ (∀ w fb, eng.build (player_story env fe st p) = BuildResult.oserr w →
        eng.build (player_fallback_story p) = BuildResult.ok fb →
        build_player_report env fe st eng p = Except.ok (w ++ fb)) := by
  constructor
  · intro w fb h1 h2
    unfold build_group_report
    rw [h1, h2]
  · intro w fb h1 h2
    unfold build_player_report
    rw [h1, h2]

/-- A concrete one-player group. -/
def groupDemo : PlayerGroup :=
  { name := "G1", coach := "C", players := [playerNoEval] }

/-- An engine that serializes only the two fallback stories (to `[2]`) and
raises `OSError` (after writing `[5]`) on everything else. -/
def engFailsBoth : Engine :=
  ⟨fun s =>
    if s = group_fallback_story groupDemo
        ∨ s = player_fallback_story playerNoEval then BuildResult.ok [2]
    else BuildResult.oserr [5]⟩

/-- Witness for the amended Claim C1 at concrete inputs: the group report
returns the fallback bytes alone, the player report returns the partial
write followed by the fallback bytes. -/
theorem c1_fallback_amended_witness :
    build_group_report envStorageOk engFailsBoth groupDemo = Except.ok [2]
    ∧ build_player_report envStorageOk feNoFonts ⟨[]⟩ engFailsBoth playerNoEval
      = Except.ok ([5] ++ [2]) :=
  ⟨(c1_fallback_amended envStorageOk feNoFonts ⟨[]⟩ engFailsBoth groupDemo
      playerNoEval).1 [5] [2] (by decide) (by decide),
   (c1_fallback_amended envStorageOk feNoFonts ⟨[]⟩ engFailsBoth groupDemo
      playerNoEval).2 [5] [2] (by decide) (by decide)⟩
